import Mathlib

/-!
Verification of the flight-tracker-display repository.

This file gives a shallow embedding of the parts of the code that carry
algorithmic content, and proves (or refutes) the specification claims
about them:

- `backend/lib/flightNormalizer.js` — unit conversion, status
  classification, per-record rejection (`toNumber`, `resolveStatus`,
  `normalizeFlight`, `normalizeFlightData`);
- `src/data/sampleFlights.ts` — geometry (`sanitizeBounds`,
  `boundsFromConfig`);
- the provider adapters (`FlightAdapter.calculateBounds`,
  `FlightRadar24Adapter.extractAirline` and `transformFlightData`,
  `OpenSkyAdapter.parseCallsign` and `transformFlightData`, the base
  class airport arrivals/departures stubs);
- the server route for airport arrivals/departures;
- the display-mode state machine of `FlightDisplay` (empty-streak
  hysteresis) and the slideshow index selection of `PhotoSlideshow`
  (`pickNextIndex`).

JavaScript finite numbers are modelled exactly as rationals; `undefined`,
`null`, `NaN`, strings and booleans are modelled by an explicit value
type so that the coercions (`Number(...)`, truthiness, `||` defaulting)
can be embedded faithfully.
-/

namespace FlightTracker

/-- Model of a JavaScript value as it occurs in the provider payloads and
the normalizer inputs: the JSON values (null, finite numbers, strings,
booleans) plus `undefined` (absent field / short array) and `NaN`
(result of a failed numeric coercion).  Finite numbers are exact
rationals. -/
inductive JSVal where
  | undef
  | jsNull
  | nan
  | num (q : ℚ)
  | str (s : String)
  | bool (b : Bool)
  deriving Repr, DecidableEq

/-- JavaScript truthiness: `undefined`, `null`, `NaN`, `0`, the empty
string and `false` are falsy; everything else is truthy. -/
def truthy : JSVal → Bool
  | .undef => false
  | .jsNull => false
  | .nan => false
  | .num q => q != 0
  | .str s => s != ""
  | .bool b => b

/-- The JavaScript `a || b` expression: `a` when truthy, otherwise `b`. -/
def jsOr (a b : JSVal) : JSVal := if truthy a then a else b

/-- The JS string method `trim()`: strip leading and trailing
whitespace (modelled structurally on the character list so that it
computes by iota reduction). -/
def jsTrim (s : String) : String :=
  String.mk ((s.toList.dropWhile Char.isWhitespace).reverse.dropWhile Char.isWhitespace).reverse

/-- The JS string method `toUpperCase()` on the ASCII range (the only
range an ICAO route parameter can meaningfully contain): lowercase
letters a-z (codes 97 to 122) map down by 32. -/
def jsToUpper (s : String) : String :=
  String.mk (s.toList.map fun c =>
    if 97 ≤ c.toNat ∧ c.toNat ≤ 122 then Char.ofNat (c.toNat - 32) else c)

/-- `Number(s)` for a string: a blank string converts to 0; otherwise an
optionally signed run of decimal digits converts to the integer it
denotes (the fragment of the JS numeric-string grammar that the feeds of
this repository can contain); anything else yields `NaN` (`none`). -/
def strToNum (s : String) : Option ℚ :=
  let t := jsTrim s
  if t = "" then some 0
  else match t.toInt? with
    | some n => some (n : ℚ)
    | none => none

/-- `Number(v)`, restricted to reporting whether the outcome is finite:
`some q` when `Number(v)` is the finite number `q`, `none` when it is
`NaN`.  Note `Number(null) = 0` and `Number(undefined) = NaN`. -/
def jsToNumber : JSVal → Option ℚ
  | .undef => none
  | .jsNull => some 0
  | .nan => none
  | .num q => some q
  | .str s => strToNum s
  | .bool b => some (if b then 1 else 0)

/-- `toNumber(value, fallback)` from flightNormalizer.js with a numeric
fallback: the finite conversion of `value`, else `fallback`. -/
def toNumberD (v : JSVal) (fallback : ℚ) : ℚ := (jsToNumber v).getD fallback

/-- JS multiplication of a payload value by a numeric literal: coerces the
value with `Number`, producing `NaN` when the coercion fails. -/
def jsMulQ (v : JSVal) (q : ℚ) : JSVal :=
  match jsToNumber v with
  | some x => .num (x * q)
  | none => .nan

/-- String view of a payload value whose provider schema declares it a
string: `asString` keeps strings and maps every other value to the empty
string (the adapters only ever default such fields with `|| ''`). -/
def asString : JSVal → String
  | .str s => s
  | _ => ""

/-- `Math.round`: round half toward positive infinity. -/
def jsRound (q : ℚ) : ℤ := ⌊q + 1 / 2⌋

/-- Conversion constant `FEET_PER_METER = 3.28084`. -/
def feetPerMeter : ℚ := 3.28084

/-- Conversion constant `KNOTS_PER_MPS = 1.94384`. -/
def knotsPerMps : ℚ := 1.94384

/-- Conversion constant `FPM_PER_MPS = 196.8504`. -/
def fpmPerMps : ℚ := 196.8504

/-- The five canonical flight statuses. -/
inductive Status where
  | climbing
  | descending
  | cruising
  | approaching
  | landed
  deriving Repr, DecidableEq

/-- `resolveStatus` from flightNormalizer.js.  The on-ground flag is the
raw field and is tested for truthiness; vertical speed and altitude go
through `toNumber(_, 0)`. -/
def resolveStatus (onGround verticalSpeed altitude : JSVal) : Status :=
  if truthy onGround then .landed
  else
    if toNumberD altitude 0 < 3000 ∧ toNumberD verticalSpeed 0 < -200 then .approaching
    else if toNumberD verticalSpeed 0 > 300 then .climbing
    else if toNumberD verticalSpeed 0 < -300 then .descending
    else .cruising

/-- `normalizeAirline` result record. -/
structure AirlineInfo where
  name : String
  iata : String
  icao : String
  deriving Repr, DecidableEq

/-- `normalizeAirline` from flightNormalizer.js (the adapters always
deliver the airline code as a string). -/
def normalizeAirline (code : String) : AirlineInfo :=
  if jsTrim code = "" then ⟨"Unknown Airline", "", ""⟩
  else ⟨jsTrim code, jsTrim code, jsTrim code⟩

/-- `normalizeAirport` result record. -/
structure AirportInfo where
  airport : String
  iata : String
  city : String
  country : String
  deriving Repr, DecidableEq

/-- `normalizeAirport` from flightNormalizer.js. -/
def normalizeAirport (code : String) : AirportInfo :=
  ⟨if jsTrim code = "" then "Unknown Airport" else jsTrim code, jsTrim code, "", ""⟩

/-- Aircraft block of the canonical Flight record (`type` is a reserved
word in Lean, modelled as `typeLabel`). -/
structure AircraftInfo where
  typeLabel : String
  icao : String
  registration : String
  deriving Repr, DecidableEq

/-- Position block of the canonical Flight record: rounded integral
feet / knots / degrees / fpm, exact rational coordinates. -/
structure FlightPosition where
  altitude : ℤ
  speed : ℤ
  heading : ℤ
  verticalSpeed : ℤ
  latitude : ℚ
  longitude : ℚ
  deriving Repr, DecidableEq

/-- The canonical Flight record produced by the normalizer. -/
structure Flight where
  id : String
  flightNumber : String
  callsign : String
  airline : AirlineInfo
  aircraft : AircraftInfo
  departure : AirportInfo
  arrival : AirportInfo
  position : FlightPosition
  status : Status
  deriving Repr, DecidableEq

/-- The record shape both adapters deliver to the normalizer.  Fields
whose provider schema is string-valued are strings (the adapters default
them with `|| ''`); the numeric and flag fields keep the raw JS value
(`null` markers, absent positions, and so on). -/
structure RawFlight where
  id : String
  icao24 : String
  callsign : String
  flightNumber : String
  airline : String
  aircraft : String
  registration : String
  origin : String
  destination : String
  latitude : JSVal
  longitude : JSVal
  altitude : JSVal
  heading : JSVal
  velocity : JSVal
  verticalRate : JSVal
  onGround : JSVal
  timestamp : JSVal
  deriving Repr, DecidableEq

/-- `metersToFeet` from flightNormalizer.js. -/
def metersToFeet (v : JSVal) : ℤ := jsRound (toNumberD v 0 * feetPerMeter)

/-- `mpsToKnots` from flightNormalizer.js. -/
def mpsToKnots (v : JSVal) : ℤ := jsRound (toNumberD v 0 * knotsPerMps)

/-- `mpsToFpm` from flightNormalizer.js. -/
def mpsToFpm (v : JSVal) : ℤ := jsRound (toNumberD v 0 * fpmPerMps)

/-- `normalizeFlight` from flightNormalizer.js.  The `none` input arm is
the `if (!rawFlight) return null` guard; the record is rejected when
`toNumber(latitude, null)` or `toNumber(longitude, null)` is `null`,
which happens exactly when the JS `Number` coercion is not finite. -/
def normalizeFlight : Option RawFlight → Option Flight
  | none => none
  | some r =>
    match jsToNumber r.latitude, jsToNumber r.longitude with
    | some latitude, some longitude =>
      some
        { id :=
            if r.id ≠ "" then r.id
            else (if r.icao24 ≠ "" then r.icao24 else "unknown") ++ "_" ++
                 (if r.callsign ≠ "" then r.callsign else "unknown")
          flightNumber := jsTrim (if r.flightNumber ≠ "" then r.flightNumber else r.callsign)
          callsign := jsTrim r.callsign
          airline := normalizeAirline r.airline
          aircraft := ⟨jsTrim r.aircraft, jsTrim r.aircraft, jsTrim r.registration⟩
          departure := normalizeAirport r.origin
          arrival := normalizeAirport r.destination
          position :=
            { altitude := metersToFeet r.altitude
              speed := mpsToKnots r.velocity
              heading := jsRound (toNumberD r.heading 0)
              verticalSpeed := mpsToFpm r.verticalRate
              latitude := latitude
              longitude := longitude }
          status :=
            resolveStatus r.onGround (.num (mpsToFpm r.verticalRate : ℚ))
              (.num (metersToFeet r.altitude : ℚ)) }
    | _, _ => none

/-- The flights component of `normalizeFlightData` from
flightNormalizer.js: map `normalizeFlight` over the batch and
`filter(Boolean)` the rejected records.  The metadata fields the wrapper
passes through (`source`, `timestamp`, `center`, `radius`, `location`)
carry no logic touched by any claim and are omitted. -/
def normalizeFlightData (flights : List (Option RawFlight)) : List Flight :=
  flights.filterMap normalizeFlight

/-! Geometry module (src/data/sampleFlights.ts and the adapter base
class). -/

/-- `RectangleBounds` from sampleFlights.ts. -/
structure RectangleBounds where
  north : ℚ
  south : ℚ
  west : ℚ
  east : ℚ
  deriving Repr, DecidableEq

/-- `defaultBounds` from sampleFlights.ts (San Francisco box). -/
def defaultBounds : RectangleBounds :=
  { north := 37.82, south := 37.70, west := -122.55, east := -122.35 }

/-- `sanitizeBounds` from sampleFlights.ts: pairwise max/min so that an
inverted rectangle is repaired rather than rejected. -/
def sanitizeBounds (bounds : RectangleBounds) : RectangleBounds :=
  { north := max bounds.north bounds.south
    south := min bounds.north bounds.south
    east := max bounds.east bounds.west
    west := min bounds.east bounds.west }

/-- Rectangle area block of the frontend config (type tag `rectangle`). -/
structure RectangleArea where
  nwLat : ℚ
  nwLon : ℚ
  seLat : ℚ
  seLon : ℚ
  deriving Repr, DecidableEq

/-- Circle location block of the frontend config. -/
structure CircleLocation where
  latitude : ℚ
  longitude : ℚ
  radius : ℚ
  deriving Repr, DecidableEq

/-- The config shape consumed by `boundsFromConfig` (an area of type
`rectangle`, or a legacy circle location, or neither). -/
structure ConfigResponse where
  area : Option RectangleArea
  location : Option CircleLocation
  deriving Repr, DecidableEq

/-- `boundsFromConfig` from sampleFlights.ts: a rectangle area wins over
a circle location; the circle branch uses the degree offset
`max(radius / 100, 0.05)` on both axes; with no config the default box
is returned. -/
def boundsFromConfig : Option ConfigResponse → RectangleBounds
  | some cfg =>
    match cfg.area with
    | some a =>
      sanitizeBounds { north := a.nwLat, south := a.seLat, west := a.nwLon, east := a.seLon }
    | none =>
      match cfg.location with
      | some loc =>
        sanitizeBounds
          { north := loc.latitude + max (loc.radius / 100) 0.05
            south := loc.latitude - max (loc.radius / 100) 0.05
            west := loc.longitude - max (loc.radius / 100) 0.05
            east := loc.longitude + max (loc.radius / 100) 0.05 }
      | none => defaultBounds
  | none => defaultBounds

/-- `FlightAdapter.calculateBounds` from the adapter base class: latitude
offset `radiusKm * 1000 / 111000` degrees and a cosine-corrected
longitude offset.  `Math.cos(latitude * Math.PI / 180)` is transcendental
and is supplied as the explicit parameter `cosLat`; the claims at issue
concern the latitude offset, which does not involve it. -/
def calculateBounds (latitude longitude radiusKm cosLat : ℚ) : RectangleBounds :=
  { north := latitude + radiusKm * 1000 / 111000
    south := latitude - radiusKm * 1000 / 111000
    east := longitude + radiusKm * 1000 / (111000 * cosLat)
    west := longitude - radiusKm * 1000 / (111000 * cosLat) }

/-- `FlightAdapter.rectangleToBounds` from the adapter base class. -/
def rectangleToBounds (nwLat nwLon seLat seLon : ℚ) : RectangleBounds :=
  { north := nwLat, south := seLat, west := nwLon, east := seLon }

/-! Display-mode state machine (`FlightDisplay` in the frontend). -/

/-- `emptyThreshold` from FlightDisplay. -/
def emptyThreshold : ℕ := 3

/-- One run of the `emptyStreak` effect in FlightDisplay: a poll error
sets the streak to `emptyThreshold`; a successful poll resets it to 0
when flights are present and increments it otherwise. -/
def nextEmptyStreak (isError hasFlights : Bool) (prev : ℕ) : ℕ :=
  if isError then emptyThreshold
  else if hasFlights then 0
  else prev + 1

/-- The two display modes. -/
inductive DisplayMode where
  | flight
  | photos
  deriving Repr, DecidableEq

/-- The `mode` computation in FlightDisplay:
`hasFlights || emptyStreak < emptyThreshold ? flight : photos`. -/
def displayMode (hasFlights : Bool) (emptyStreak : ℕ) : DisplayMode :=
  if hasFlights || decide (emptyStreak < emptyThreshold) then .flight else .photos

/-- Outcome of one poll of `/api/flights/overhead`. -/
inductive PollResult where
  | error
  | success (flightCount : ℕ)
  deriving Repr, DecidableEq

/-- The poll-relevant state of FlightDisplay: the empty streak and the
number of flights in the last successfully fetched data (the query cache
keeps the previous data when a refetch fails). -/
structure DisplayPollState where
  emptyStreak : ℕ
  flightCount : ℕ
  deriving Repr, DecidableEq

/-- The useState initial values of FlightDisplay: streak 0 and no data.
This is the state of the first render only — the streak effect has not
run yet at this point. -/
def initDisplayState : DisplayPollState := ⟨0, 0⟩

/-- The state of FlightDisplay after mount: React runs the streak effect
once after the first render, at which point there is no error and no
data (`hasFlights` false), so the effect body
`setEmptyStreak(prev => hasFlights ? 0 : prev + 1)` already raises the
streak to 1 before the first poll completes. -/
def mountDisplayState : DisplayPollState :=
  { emptyStreak := nextEmptyStreak false false initDisplayState.emptyStreak
    flightCount := initDisplayState.flightCount }

/-- One poll completion applied to the display state: an error leaves the
cached data in place and runs the streak effect with `isError`; a success
replaces the data and runs it with `hasFlights`. -/
def stepDisplay : PollResult → DisplayPollState → DisplayPollState
  | .error, s =>
    { s with emptyStreak := nextEmptyStreak true (decide (0 < s.flightCount)) s.emptyStreak }
  | .success n, s =>
    { emptyStreak := nextEmptyStreak false (decide (0 < n)) s.emptyStreak
      flightCount := n }

/-- The mode rendered from a poll state. -/
def stateMode (s : DisplayPollState) : DisplayMode :=
  displayMode (decide (0 < s.flightCount)) s.emptyStreak

/-- Apply a sequence of poll completions in order. -/
def runPolls (events : List PollResult) (s : DisplayPollState) : DisplayPollState :=
  events.foldl (fun st e => stepDisplay e st) s

/-! Slideshow selection (`PhotoSlideshow.tsx`). -/

/-- `pickNextIndex` from PhotoSlideshow.tsx.  `draws` is the stream of
values `Math.floor(Math.random() * photos.length)` produced by successive
iterations of the rejection loop; the loop returns the first draw
different from `excludeIndex`, and `none` models the (probability-zero)
run in which every draw equals `excludeIndex` and the loop never exits. -/
def pickNextIndex (shuffle : Bool) (photosLength excludeIndex : ℕ)
    (draws : List ℕ) : Option ℕ :=
  if !shuffle then some ((excludeIndex + 1) % photosLength)
  else if photosLength = 2 then some (if excludeIndex = 0 then 1 else 0)
  else draws.find? (fun d => d != excludeIndex)

/-! Callsign parsing (FlightRadar24Adapter and OpenSkyAdapter). -/

/-- ASCII uppercase-letter test, the character class of the regexes
(codes 65 to 90). -/
def isUpperAZ (c : Char) : Bool := 65 ≤ c.toNat && c.toNat ≤ 90

/-- ASCII digit test, the regex class `\d` (codes 48 to 57). -/
def isDigit09 (c : Char) : Bool := 48 ≤ c.toNat && c.toNat ≤ 57

/-- `FlightRadar24Adapter.extractAirline`: group 1 of the greedy match of
the anchored pattern of two-to-three uppercase letters at the start of
the string (three if available, else two), with a falsy callsign mapped
to the empty string. -/
def extractAirline (callsign : String) : String :=
  if callsign = "" then ""
  else
    match callsign.toList with
    | a :: b :: c :: _ =>
      if isUpperAZ a && isUpperAZ b && isUpperAZ c then String.mk [a, b, c]
      else if isUpperAZ a && isUpperAZ b then String.mk [a, b]
      else ""
    | [a, b] => if isUpperAZ a && isUpperAZ b then String.mk [a, b] else ""
    | _ => ""

/-- Does a remainder satisfy the optional tail group of the OpenSky
pattern followed by the end anchor: empty, or one-or-more digits then
anything — equivalently, empty or digit-initial. -/
def digitTail : List Char → Bool
  | [] => true
  | d :: _ => isDigit09 d

/-- Result record of `OpenSkyAdapter.parseCallsign`. -/
structure ParsedCallsign where
  airline : String
  flightNumber : String
  deriving Repr, DecidableEq

/-- `OpenSkyAdapter.parseCallsign`: trim, then match the whole string
against two-to-three uppercase letters followed by an optional
digit-initial tail (the greedy letter group backtracks from three to two
when the tail fails); on failure the airline is empty and the flight
number is the trimmed callsign. -/
def parseCallsign (callsign : String) : ParsedCallsign :=
  if callsign = "" then ⟨"", ""⟩
  else
    match (jsTrim callsign).toList with
    | a :: b :: c :: rest =>
      if isUpperAZ a && isUpperAZ b then
        if isUpperAZ c && digitTail rest then ⟨String.mk [a, b, c], String.mk rest⟩
        else if digitTail (c :: rest) then ⟨String.mk [a, b], String.mk (c :: rest)⟩
        else ⟨"", jsTrim callsign⟩
      else ⟨"", jsTrim callsign⟩
    | [a, b] => if isUpperAZ a && isUpperAZ b then ⟨String.mk [a, b], ""⟩ else ⟨"", jsTrim callsign⟩
    | _ => ⟨"", jsTrim callsign⟩

/-! Adapter batch transformation (FlightRadar24Adapter and
OpenSkyAdapter `transformFlightData`). -/

/-- A property value of the FlightRadar24 feed object: either an array
of positional fields (a flight row) or one of the metadata properties
(`version`, `full_count`, ...). -/
inductive FR24Value where
  | arr (fields : List JSVal)
  | meta
  deriving Repr, DecidableEq

/-- `FlightRadar24Adapter.parseFR24Flight`: positional destructuring of
one feed row (absent positions destructure to `undefined`), with the
unit conversions feet to meters (× 0.3048), knots to m/s (× 0.514444)
and fpm to m/s (× 0.00508) applied to truthy values, falsy coordinates
replaced by `null`, and `onGround` the strict comparison of position 14
with the number 1.  Destructuring never throws, so the try/catch of the
source is dead and the function is total. -/
def parseFR24Flight (id : String) (data : List JSVal) (now : ℚ) : RawFlight :=
  { id := id
    icao24 := asString (jsOr (data.getD 0 .undef) (.str ""))
    callsign := asString (jsOr (data.getD 16 .undef) (jsOr (data.getD 13 .undef) (.str "")))
    flightNumber := asString (jsOr (data.getD 13 .undef) (.str ""))
    airline :=
      extractAirline (asString (jsOr (data.getD 16 .undef) (jsOr (data.getD 13 .undef) (.str ""))))
    aircraft := asString (jsOr (data.getD 8 .undef) (.str ""))
    registration := asString (jsOr (data.getD 9 .undef) (.str ""))
    origin := asString (jsOr (data.getD 11 .undef) (.str ""))
    destination := asString (jsOr (data.getD 12 .undef) (.str ""))
    latitude := jsOr (data.getD 1 .undef) .jsNull
    longitude := jsOr (data.getD 2 .undef) .jsNull
    altitude := if truthy (data.getD 4 .undef) then jsMulQ (data.getD 4 .undef) 0.3048 else .jsNull
    heading := jsOr (data.getD 3 .undef) .jsNull
    velocity :=
      if truthy (data.getD 5 .undef) then jsMulQ (data.getD 5 .undef) 0.514444 else .jsNull
    verticalRate :=
      if truthy (data.getD 15 .undef) then jsMulQ (data.getD 15 .undef) 0.00508 else .jsNull
    onGround := .bool (data.getD 14 .undef == .num 1)
    timestamp := jsOr (data.getD 10 .undef) (.num now) }

/-- The filter both adapters apply to the parsed batch before returning
it: drop rows with a `null` coordinate and rows that are on the
ground. -/
def flightBatchFilter (f : RawFlight) : Bool :=
  f.latitude != JSVal.jsNull && f.longitude != JSVal.jsNull && !truthy f.onGround

/-- `FlightRadar24Adapter.transformFlightData`: keep the object
properties that are arrays of length at least 13, parse each, and apply
the coordinate/on-ground filter.  `now` stands for `Date.now()`. -/
def fr24TransformFlightData (rawData : List (String × FR24Value)) (now : ℚ) : List RawFlight :=
  (rawData.filterMap fun kv =>
      match kv.2 with
      | .arr value => if 13 ≤ value.length then some (parseFR24Flight kv.1 value now) else none
      | .meta => none).filter flightBatchFilter

/-- `OpenSkyAdapter.parseOpenSkyFlight`: positional destructuring of one
state vector (17 positions; absent positions destructure to
`undefined`).  Coordinates and rates are passed through unconverted;
the callsign is parsed with `parseCallsign`; `onGround` is
`on_ground || false`. -/
def parseOpenSkyFlight (state : List JSVal) (now : ℚ) : RawFlight :=
  { id :=
      (if truthy (state.getD 0 .undef) then asString (state.getD 0 .undef) else "unknown") ++
        "_" ++
        (if truthy (state.getD 1 .undef) then asString (state.getD 1 .undef) else "unknown")
    icao24 := asString (jsOr (state.getD 0 .undef) (.str ""))
    callsign := jsTrim (asString (state.getD 1 .undef))
    flightNumber := (parseCallsign (asString (state.getD 1 .undef))).flightNumber
    airline := (parseCallsign (asString (state.getD 1 .undef))).airline
    aircraft := ""
    registration := ""
    origin := ""
    destination := ""
    latitude := state.getD 6 .undef
    longitude := state.getD 5 .undef
    altitude := state.getD 7 .undef
    heading := state.getD 10 .undef
    velocity := state.getD 9 .undef
    verticalRate := state.getD 11 .undef
    onGround := jsOr (state.getD 8 .undef) (.bool false)
    timestamp :=
      if truthy (state.getD 4 .undef) then jsMulQ (state.getD 4 .undef) 1000 else .num now }

/-- `OpenSkyAdapter.transformFlightData`: parse every state vector of the
response (when the `states` field is an array) and apply the same
coordinate/on-ground filter as the FlightRadar24 adapter. -/
def openSkyTransformFlightData (states : Option (List (List JSVal))) (now : ℚ) :
    List RawFlight :=
  (match states with
    | some l => l.map fun s => parseOpenSkyFlight s now
    | none => []).filter flightBatchFilter

/-! Airport arrivals/departures capability (adapter base class,
OpenSkyAdapter, and the server routes). -/

/-- The configured provider kinds of the adapter factory. -/
inductive AdapterKind where
  | flightradar24
  | opensky
  deriving Repr, DecidableEq

/-- `getAirportArrivals`: the FlightRadar24 adapter inherits the base
class method, which returns the `null` sentinel (`Except.ok none`) and
never throws; the OpenSky adapter issues a network request whose outcome
is the `net` parameter, wrapping data in the `some` arm and surfacing a
transport or auth failure as a thrown error. -/
def getAirportArrivals (kind : AdapterKind) (net : Except Unit JSVal) :
    Except Unit (Option JSVal) :=
  match kind with
  | .flightradar24 => .ok none
  | .opensky =>
    match net with
    | .ok d => .ok (some d)
    | .error e => .error e

/-- `getAirportDepartures`: same structure as the arrivals capability
(base-class `null` sentinel for FlightRadar24, network-backed for
OpenSky). -/
def getAirportDepartures (kind : AdapterKind) (net : Except Unit JSVal) :
    Except Unit (Option JSVal) :=
  match kind with
  | .flightradar24 => .ok none
  | .opensky =>
    match net with
    | .ok d => .ok (some d)
    | .error e => .error e

/-- The ICAO guard of the airport routes: uppercase the code and require
exactly four characters of class `[A-Z]`. -/
def isValidIcao (icao : String) : Bool :=
  (jsToUpper icao).length = 4 && (jsToUpper icao).toList.all isUpperAZ

/-- HTTP status produced by `GET /api/airports/:icao/arrivals`: 400 for a
malformed ICAO code or timestamp query, 500 when the adapter throws, 501
when the adapter returns the `null` sentinel, 200 when it returns
data.  `tsValid` summarises the `parseInt` checks on the optional
`begin`/`end` query parameters. -/
def arrivalsHandlerStatus (icao : String) (tsValid : Bool) (kind : AdapterKind)
    (net : Except Unit JSVal) : ℕ :=
  if !isValidIcao icao then 400
  else if !tsValid then 400
  else
    match getAirportArrivals kind net with
    | .error _ => 500
    | .ok none => 501
    | .ok (some _) => 200

/-- HTTP status produced by `GET /api/airports/:icao/departures`;
identical structure to the arrivals route. -/
def departuresHandlerStatus (icao : String) (tsValid : Bool) (kind : AdapterKind)
    (net : Except Unit JSVal) : ℕ :=
  if !isValidIcao icao then 400
  else if !tsValid then 400
  else
    match getAirportDepartures kind net with
    | .error _ => 500
    | .ok none => 501
    | .ok (some _) => 200

/-! Theorems. -/

/-- C1: the normalized status follows the fixed-order first-match rule of
`resolveStatus`: a truthy on-ground flag yields `landed` irrespective of
the numeric fields; otherwise altitude below 3000 ft together with
vertical speed below -200 fpm yields `approaching` (taking precedence
over the vertical-speed-only rules); otherwise vertical speed above
300 fpm yields `climbing`; otherwise below -300 fpm yields `descending`;
otherwise `cruising`. -/
theorem resolveStatus_spec (onGround : JSVal) (vs alt : ℚ) :
    (truthy onGround = true →
      resolveStatus onGround (.num vs) (.num alt) = Status.landed) ∧
    (truthy onGround = false → alt < 3000 → vs < -200 →
      resolveStatus onGround (.num vs) (.num alt) = Status.approaching) ∧
    (truthy onGround = false → ¬(alt < 3000 ∧ vs < -200) → 300 < vs →
      resolveStatus onGround (.num vs) (.num alt) = Status.climbing) ∧
    (truthy onGround = false → ¬(alt < 3000 ∧ vs < -200) → vs < -300 →
      resolveStatus onGround (.num vs) (.num alt) = Status.descending) ∧
    (truthy onGround = false → ¬(alt < 3000 ∧ vs < -200) → ¬(300 < vs) → ¬(vs < -300) →
      resolveStatus onGround (.num vs) (.num alt) = Status.cruising) := by
  have hvs : toNumberD (.num vs) 0 = vs := rfl
  have halt : toNumberD (.num alt) 0 = alt := rfl
  refine ⟨fun h => by simp [resolveStatus, h], ?_, ?_, ?_, ?_⟩
  · intro h h1 h2
    simp [resolveStatus, h, hvs, halt, h1, h2]
  · intro h hna hc
    have hnd : ¬vs < -300 := by linarith
    simp [resolveStatus, h, hvs, halt, hna, hc, hnd]
  · intro h hna hd
    have hnc : ¬(300 : ℚ) < vs := by linarith
    simp [resolveStatus, h, hvs, halt, hna, hnc, hd]
  · intro h hna hnc hnd
    simp [resolveStatus, h, hvs, halt, hna, hnc, hnd]

/-- C1 witness: the theorem applied at concrete inputs, one per branch. -/
theorem resolveStatus_spec_witness :
    resolveStatus (.bool true) (.num 0) (.num 0) = Status.landed ∧
    resolveStatus (.bool false) (.num (-250)) (.num 2000) = Status.approaching ∧
    resolveStatus (.bool false) (.num 400) (.num 5000) = Status.climbing ∧
    resolveStatus (.bool false) (.num (-400)) (.num 5000) = Status.descending ∧
    resolveStatus (.bool false) (.num 0) (.num 5000) = Status.cruising :=
  ⟨(resolveStatus_spec (.bool true) 0 0).1 rfl,
   (resolveStatus_spec (.bool false) (-250) 2000).2.1 rfl (by norm_num) (by norm_num),
   (resolveStatus_spec (.bool false) 400 5000).2.2.1 rfl (by norm_num) (by norm_num),
   (resolveStatus_spec (.bool false) (-400) 5000).2.2.2.1 rfl (by norm_num) (by norm_num),
   (resolveStatus_spec (.bool false) 0 5000).2.2.2.2 rfl (by norm_num) (by norm_num)
     (by norm_num)⟩

/-- C2 counterexample: on a poll error the streak effect sets
`emptyStreak` to the threshold 3, so from a previous value of 0 the
increment is 3, not 1 — the claim that the error case increments by
exactly 1 fails. -/
theorem nextEmptyStreak_error_counterexample :
    nextEmptyStreak true false 0 = 3 ∧ nextEmptyStreak true false 0 ≠ 0 + 1 := by
  decide

/-- C2 amended: a successful poll with zero flights increments
`emptyStreak` by exactly 1; a poll error instead sets it to the
threshold `emptyThreshold = 3` regardless of the previous value; a
successful poll with flights resets it to 0. -/
theorem nextEmptyStreak_amended_spec (hasFlights : Bool) (prev : ℕ) :
    nextEmptyStreak false false prev = prev + 1 ∧
    nextEmptyStreak true hasFlights prev = emptyThreshold ∧
    nextEmptyStreak false true prev = 0 := by
  simp [nextEmptyStreak]

/-- C4: `sanitizeBounds` computes the pairwise max/min of the latitude
pair and the longitude pair, always yields north at least south and east
at least west, and is idempotent. -/
theorem sanitizeBounds_spec (b : RectangleBounds) :
    (sanitizeBounds b).north = max b.north b.south ∧
    (sanitizeBounds b).south = min b.north b.south ∧
    (sanitizeBounds b).east = max b.east b.west ∧
    (sanitizeBounds b).west = min b.east b.west ∧
    (sanitizeBounds b).south ≤ (sanitizeBounds b).north ∧
    (sanitizeBounds b).west ≤ (sanitizeBounds b).east ∧
    sanitizeBounds (sanitizeBounds b) = sanitizeBounds b := by
  refine ⟨rfl, rfl, rfl, rfl, min_le_max, min_le_max, ?_⟩
  simp [sanitizeBounds, max_eq_left (min_le_max (a := b.north) (b := b.south)),
    min_eq_right (min_le_max (a := b.north) (b := b.south)),
    max_eq_left (min_le_max (a := b.east) (b := b.west)),
    min_eq_right (min_le_max (a := b.east) (b := b.west))]

/-- C7 counterexample: the adapter path `calculateBounds` does not apply
the degree offset max(radiusKm/100, 0.05): at radius 50 km its latitude
offset is 50/111 of a degree, not the 0.5 the claim requires. -/
theorem calculateBounds_offset_counterexample :
    (calculateBounds 0 0 50 1).north = 50 / 111 ∧
    (calculateBounds 0 0 50 1).north ≠ 0 + max ((50 : ℚ) / 100) 0.05 := by
  constructor
  · norm_num [calculateBounds]
  · norm_num [calculateBounds]

/-- C7 amended: the frontend conversion `boundsFromConfig` applies the
degree offset max(radiusKm/100, 0.05) symmetrically to both axes (0.5
degrees at radius 50); the adapter conversion `calculateBounds` instead
uses a latitude offset of radiusKm·1000/111000 degrees (50/111, about
0.4505, at radius 50) and a cosine-corrected longitude offset. -/
theorem boundsFromCircle_amended_spec (lat lon radius cosLat : ℚ) :
    (boundsFromConfig (some ⟨none, some ⟨lat, lon, radius⟩⟩)).north
        = lat + max (radius / 100) 0.05 ∧
    (boundsFromConfig (some ⟨none, some ⟨lat, lon, radius⟩⟩)).south
        = lat - max (radius / 100) 0.05 ∧
    (boundsFromConfig (some ⟨none, some ⟨lat, lon, radius⟩⟩)).east
        = lon + max (radius / 100) 0.05 ∧
    (boundsFromConfig (some ⟨none, some ⟨lat, lon, radius⟩⟩)).west
        = lon - max (radius / 100) 0.05 ∧
    (boundsFromConfig (some ⟨none, some ⟨lat, lon, 50⟩⟩)).north = lat + 1 / 2 ∧
    (calculateBounds lat lon radius cosLat).north = lat + radius * 1000 / 111000 ∧
    (calculateBounds lat lon 50 cosLat).north = lat + 50 / 111 := by
  have hd : (0 : ℚ) ≤ max (radius / 100) 0.05 :=
    le_trans (by norm_num) (le_max_right _ _)
  have hns : lat - max (radius / 100) 0.05 ≤ lat + max (radius / 100) 0.05 := by linarith
  have hew : lon - max (radius / 100) 0.05 ≤ lon + max (radius / 100) 0.05 := by linarith
  have h50 : max ((50 : ℚ) / 100) 0.05 = 1 / 2 := by
    rw [max_eq_left] <;> norm_num
  refine ⟨?_, ?_, ?_, ?_, ?_, ?_, ?_⟩
  · simp [boundsFromConfig, sanitizeBounds, max_eq_left hns]
  · simp [boundsFromConfig, sanitizeBounds, min_eq_right hns]
  · simp [boundsFromConfig, sanitizeBounds, max_eq_left hew]
  · simp [boundsFromConfig, sanitizeBounds, min_eq_right hew]
  · have h1 : lat - max ((50 : ℚ) / 100) 0.05 ≤ lat + max ((50 : ℚ) / 100) 0.05 := by
      rw [h50]; linarith
    simp only [boundsFromConfig, sanitizeBounds, max_eq_left h1, h50]
    exact max_eq_left (by linarith)
  · simp [calculateBounds]
  · simp [calculateBounds]
    norm_num

/-- Helper: one empty successful poll increments the streak and records
the empty flight list. -/
theorem stepDisplay_empty (s : DisplayPollState) :
    stepDisplay (.success 0) s = ⟨s.emptyStreak + 1, 0⟩ := by
  simp [stepDisplay, nextEmptyStreak]

/-- Helper: a run of `k` consecutive empty successful polls from a state
with no cached flights adds `k` to the streak and leaves no flights. -/
theorem runPolls_replicate_empty (k : ℕ) (s : DisplayPollState) (h : s.flightCount = 0) :
    runPolls (List.replicate k (.success 0)) s = ⟨s.emptyStreak + k, 0⟩ := by
  induction k generalizing s with
  | zero => cases s; simp_all [runPolls]
  | succ n ih =>
    rw [List.replicate_succ]
    show runPolls _ (stepDisplay _ s) = _
    rw [stepDisplay_empty, ih ⟨s.emptyStreak + 1, 0⟩ rfl]
    simp [Nat.add_assoc, Nat.add_comm 1 n]

/-- C3 counterexample: tracing the program from its start (the streak
effect has run once at mount, so the streak is already 1), a single poll
error switches the mode to `photos` after 1 poll, and even two
consecutive empty successful polls do — both strictly before the claimed
3rd consecutive empty/error poll. -/
theorem displayMode_error_counterexample :
    stateMode (runPolls [PollResult.error] mountDisplayState) = DisplayMode.photos ∧
    stateMode (runPolls [PollResult.success 0, PollResult.success 0] mountDisplayState)
      = DisplayMode.photos ∧
    (1 : ℕ) < 3 ∧ (2 : ℕ) < 3 := by
  decide

/-- C3 amended: the mode is `photos` exactly when the cached data has no
flights and the streak has reached the threshold 3.  The streak effect
also runs once at mount, so the streak is already 1 before the first
poll and consecutive empty successful polls from program start switch
the mode to `photos` exactly on the 2nd (after `k` empty polls the
streak is `1 + k` and the mode is photos iff `1 + k ≥ 3`); from a
streak-0 state with flights — the state after any successful non-empty
poll — it takes exactly 3 consecutive empty polls; a poll error jumps
the streak to the threshold at once (mode photos immediately when no
flights are cached); and a single successful poll with at least one
flight resets the streak to 0 and returns the mode to `flight` with no
threshold. -/
theorem displayMode_amended_spec (k n : ℕ) (s : DisplayPollState) (hn : 0 < n) :
    mountDisplayState.emptyStreak = 1 ∧
    (runPolls (List.replicate k (.success 0)) mountDisplayState).emptyStreak = 1 + k ∧
    stateMode (runPolls (List.replicate k (.success 0)) mountDisplayState)
      = (if 1 + k < emptyThreshold then DisplayMode.flight else DisplayMode.photos) ∧
    (runPolls (List.replicate (k + 1) (.success 0)) ⟨0, n⟩).emptyStreak = 1 + k ∧
    stateMode (runPolls (List.replicate (k + 1) (.success 0)) ⟨0, n⟩)
      = (if 1 + k < emptyThreshold then DisplayMode.flight else DisplayMode.photos) ∧
    stepDisplay (.success n) s = ⟨0, n⟩ ∧
    stateMode (stepDisplay (.success n) s) = DisplayMode.flight ∧
    (stepDisplay .error s).emptyStreak = emptyThreshold ∧
    (s.flightCount = 0 → stateMode (stepDisplay .error s) = DisplayMode.photos) := by
  have hrun1 := runPolls_replicate_empty k mountDisplayState rfl
  have hstep0 : stepDisplay (.success 0) (⟨0, n⟩ : DisplayPollState) = ⟨1, 0⟩ := by
    simp [stepDisplay, nextEmptyStreak]
  have hrun2 : runPolls (List.replicate (k + 1) (.success 0)) (⟨0, n⟩ : DisplayPollState)
      = ⟨1 + k, 0⟩ := by
    rw [List.replicate_succ]
    show runPolls _ (stepDisplay _ _) = _
    rw [hstep0, runPolls_replicate_empty k ⟨1, 0⟩ rfl]
  refine ⟨rfl, ?_, ?_, ?_, ?_, ?_, ?_, ?_, ?_⟩
  · rw [hrun1]
    simp [mountDisplayState, initDisplayState, nextEmptyStreak]
  · rw [hrun1]
    simp [stateMode, displayMode, mountDisplayState, initDisplayState, nextEmptyStreak]
  · rw [hrun2]
  · rw [hrun2]
    simp [stateMode, displayMode]
  · simp [stepDisplay, nextEmptyStreak, hn]
  · simp [stepDisplay, nextEmptyStreak, hn, stateMode, displayMode]
  · simp [stepDisplay, nextEmptyStreak]
  · intro h0
    simp [stepDisplay, nextEmptyStreak, stateMode, displayMode, h0, emptyThreshold]

/-- C3 witness: the amended theorem instantiated concretely — from
program start the second empty poll already shows photos while the first
does not; from a post-success state the third empty poll shows photos
while the second does not; a non-empty poll shows flight mode at
once. -/
theorem displayMode_amended_spec_witness :
    stateMode (runPolls (List.replicate 2 (PollResult.success 0)) mountDisplayState)
      = DisplayMode.photos ∧
    stateMode (runPolls (List.replicate 1 (PollResult.success 0)) mountDisplayState)
      = DisplayMode.flight ∧
    stateMode (runPolls (List.replicate 3 (PollResult.success 0)) ⟨0, 1⟩)
      = DisplayMode.photos ∧
    stateMode (runPolls (List.replicate 2 (PollResult.success 0)) ⟨0, 1⟩)
      = DisplayMode.flight ∧
    stateMode (stepDisplay (PollResult.success 1) mountDisplayState)
      = DisplayMode.flight := by
  refine ⟨?_, ?_, ?_, ?_, ?_⟩
  · have h := (displayMode_amended_spec 2 1 mountDisplayState (by norm_num)).2.2.1
    simpa using h
  · have h := (displayMode_amended_spec 1 1 mountDisplayState (by norm_num)).2.2.1
    simpa using h
  · have h := (displayMode_amended_spec 2 1 mountDisplayState (by norm_num)).2.2.2.2.1
    simpa using h
  · have h := (displayMode_amended_spec 1 1 mountDisplayState (by norm_num)).2.2.2.2.1
    simpa using h
  · exact (displayMode_amended_spec 3 1 mountDisplayState (by norm_num)).2.2.2.2.2.2.1

/-- C6: for at least two photos and an in-range excluded index,
`pickNextIndex` always returns an in-range index different from the
excluded one: with shuffle disabled it is `(exclude + 1) mod N`; with
shuffle enabled and exactly two photos it is deterministically the other
index; with shuffle enabled and more than two photos the
rejection-sampled result (whenever the loop exits) never equals the
excluded index and stays in range for in-range draws. -/
theorem pickNextIndex_spec (shuffle : Bool) (N e : ℕ) (draws : List ℕ)
    (hN : 2 ≤ N) (he : e < N) (hd : ∀ d ∈ draws, d < N) :
    (∀ r, pickNextIndex shuffle N e draws = some r → r < N ∧ r ≠ e) ∧
    (shuffle = false → pickNextIndex shuffle N e draws = some ((e + 1) % N)) ∧
    (shuffle = true → N = 2 →
      pickNextIndex shuffle N e draws = some (if e = 0 then 1 else 0)) := by
  cases shuffle with
  | false =>
    refine ⟨?_, fun _ => rfl, fun h => nomatch h⟩
    intro r hr
    simp only [pickNextIndex, Bool.not_false, if_true, Option.some.injEq] at hr
    subst hr
    refine ⟨Nat.mod_lt _ (by omega), ?_⟩
    rcases Nat.lt_or_ge (e + 1) N with h | h
    · rw [Nat.mod_eq_of_lt h]; omega
    · have heq : e + 1 = N := by omega
      rw [heq, Nat.mod_self]; omega
  | true =>
    by_cases h2 : N = 2
    · subst h2
      refine ⟨?_, ?_, ?_⟩
      · intro r hr
        simp [pickNextIndex] at hr
        interval_cases e <;> simp at hr <;> omega
      · intro h; exact nomatch h
      · intro _ _; simp [pickNextIndex]
    · refine ⟨?_, ?_, ?_⟩
      · intro r hr
        unfold pickNextIndex at hr
        rw [if_neg (by simp)] at hr
        rw [if_neg h2] at hr
        have h1 := List.find?_some hr
        have h3 := List.mem_of_find?_eq_some hr
        refine ⟨hd r h3, ?_⟩
        simpa using h1
      · intro h; exact nomatch h
      · intro _ hN2; exact absurd hN2 h2

/-- C5: per-record normalization rejects every raw record whose latitude
or longitude does not coerce to a finite number — in particular an
absent (`undefined`) or `NaN` coordinate — and every Flight in the
normalized output comes from a record whose two coordinates coerced to
finite rationals, which the output carries verbatim. -/
theorem normalizeFlight_reject_spec :
    (∀ r : RawFlight, jsToNumber r.latitude = none ∨ jsToNumber r.longitude = none →
      normalizeFlight (some r) = none) ∧
    jsToNumber JSVal.undef = none ∧
    jsToNumber JSVal.nan = none ∧
    (∀ (l : List (Option RawFlight))(f : Flight), f ∈ normalizeFlightData l →
      ∃ (r : RawFlight)(la lo : ℚ), some r ∈ l ∧ normalizeFlight (some r) = some f ∧
        jsToNumber r.latitude = some la ∧ jsToNumber r.longitude = some lo ∧
        f.position.latitude = la ∧ f.position.longitude = lo) := by
  refine ⟨?_, rfl, rfl, ?_⟩
  · intro r h
    rcases hla : jsToNumber r.latitude with _ | la <;>
      rcases hlo : jsToNumber r.longitude with _ | lo <;>
        simp_all [normalizeFlight]
  · intro l f hf
    rw [normalizeFlightData, List.mem_filterMap] at hf
    obtain ⟨a, hal, ha⟩ := hf
    cases a with
    | none => simp [normalizeFlight] at ha
    | some r =>
      rcases hla : jsToNumber r.latitude with _ | la <;>
        rcases hlo : jsToNumber r.longitude with _ | lo <;>
          (rw [normalizeFlight] at ha; rw [hla, hlo] at ha)
      case some.none.none => exact Option.noConfusion ha
      case some.none.some => exact Option.noConfusion ha
      case some.some.none => exact Option.noConfusion ha
      case some.some.some =>
        have he := Option.some.inj ha
        refine ⟨r, la, lo, hal, ?_, hla, hlo, ?_, ?_⟩ <;>
          (rw [← he]; try simp [normalizeFlight, hla, hlo])

/-- A raw record with an absent latitude field, for the C5 witness. -/
def rawMissingLat : RawFlight :=
  { id := "f0", icao24 := "", callsign := "", flightNumber := "", airline := "",
    aircraft := "", registration := "", origin := "", destination := "",
    latitude := .undef, longitude := .num 5, altitude := .num 0,
    heading := .num 0, velocity := .num 0, verticalRate := .num 0,
    onGround := .bool false, timestamp := .num 0 }

/-- A well-formed raw record, for the C5 witness. -/
def rawGood : RawFlight :=
  { id := "f1", icao24 := "abc123", callsign := "BAW123", flightNumber := "BA123",
    airline := "BAW", aircraft := "B738", registration := "GABCD",
    origin := "LHR", destination := "JFK",
    latitude := .num 51, longitude := .num 0, altitude := .num 1000,
    heading := .num 90, velocity := .num 100, verticalRate := .num 0,
    onGround := .bool false, timestamp := .num 0 }

/-- The Flight that `normalizeFlight` produces from `rawGood`. -/
def goodFlight : Flight :=
  { id := "f1", flightNumber := "BA123", callsign := "BAW123",
    airline := ⟨"BAW", "BAW", "BAW"⟩,
    aircraft := ⟨"B738", "B738", "GABCD"⟩,
    departure := ⟨"LHR", "LHR", "", ""⟩,
    arrival := ⟨"JFK", "JFK", "", ""⟩,
    position :=
      { altitude := 3281, speed := 194, heading := 90, verticalSpeed := 0,
        latitude := 51, longitude := 0 },
    status := Status.cruising }

/-- C5 witness: the rejection and provenance parts of the theorem
applied at concrete records. -/
theorem normalizeFlight_reject_spec_witness :
    normalizeFlight (some rawMissingLat) = none ∧
    ∃ (r : RawFlight)(la lo : ℚ), some r ∈ [some rawGood] ∧
      normalizeFlight (some r) = some goodFlight ∧
      jsToNumber r.latitude = some la ∧ jsToNumber r.longitude = some lo ∧
      goodFlight.position.latitude = la ∧ goodFlight.position.longitude = lo := by
  have hng : normalizeFlight (some rawGood) = some goodFlight := by
    norm_num [normalizeFlight, rawGood, goodFlight, jsToNumber, normalizeAirline,
      normalizeAirport, metersToFeet, mpsToKnots, mpsToFpm, jsRound, toNumberD,
      feetPerMeter, knotsPerMps, fpmPerMps, jsTrim, resolveStatus, truthy]
    decide
  have hmem : goodFlight ∈ normalizeFlightData [some rawGood] := by
    simp [normalizeFlightData, hng]
  refine ⟨normalizeFlight_reject_spec.1 rawMissingLat (Or.inl rfl), ?_⟩
  exact normalizeFlight_reject_spec.2.2.2 [some rawGood] goodFlight hmem

/-- C8: the FlightRadar24 adapter lacks the arrivals/departures
capability and its inherited methods return the `null` sentinel
(`ok none`) without throwing, whatever the network would do; the route
handlers map that sentinel to HTTP 501, distinct from both the 200 data
response and the 500 failure response of a capable provider. -/
theorem airportUnsupported_spec (icao : String) (tsValid : Bool) (net : Except Unit JSVal)
    (hicao : isValidIcao icao = true) (hts : tsValid = true) :
    getAirportArrivals .flightradar24 net = .ok none ∧
    getAirportDepartures .flightradar24 net = .ok none ∧
    arrivalsHandlerStatus icao tsValid .flightradar24 net = 501 ∧
    departuresHandlerStatus icao tsValid .flightradar24 net = 501 ∧
    (∀ d : JSVal, arrivalsHandlerStatus icao tsValid .opensky (.ok d) = 200) ∧
    (∀ e : Unit, arrivalsHandlerStatus icao tsValid .opensky (.error e) = 500) := by
  subst hts
  refine ⟨rfl, rfl, ?_, ?_, ?_, ?_⟩ <;>
    simp [arrivalsHandlerStatus, departuresHandlerStatus, getAirportArrivals,
      getAirportDepartures, hicao]

/-- C8 witness: the theorem applied at a concrete valid ICAO code with a
failing network. -/
theorem airportUnsupported_spec_witness :
    arrivalsHandlerStatus "EGLL" true .flightradar24 (.error ()) = 501 ∧
    departuresHandlerStatus "EGLL" true .flightradar24 (.error ()) = 501 :=
  ⟨(airportUnsupported_spec "EGLL" true (.error ()) (by decide) rfl).2.2.1,
   (airportUnsupported_spec "EGLL" true (.error ()) (by decide) rfl).2.2.2.1⟩

/-- C6 witness: the theorem applied at concrete inputs for each of the
three selection regimes. -/
theorem pickNextIndex_spec_witness :
    pickNextIndex false 5 4 [] = some 0 ∧
    pickNextIndex true 2 1 [] = some 0 ∧
    (∀ r, pickNextIndex true 5 2 [2, 2, 4] = some r → r < 5 ∧ r ≠ 2) := by
  refine ⟨?_, ?_, ?_⟩
  · have h := (pickNextIndex_spec false 5 4 [] (by norm_num) (by norm_num)
      (by simp)).2.1 rfl
    simpa using h
  · have h := (pickNextIndex_spec true 2 1 [] (by norm_num) (by norm_num)
      (by simp)).2.2 rfl rfl
    simpa using h
  · exact (pickNextIndex_spec true 5 2 [2, 2, 4] (by norm_num) (by norm_num)
      (by decide)).1

/-- Helper: a digit character is not an uppercase letter. -/
theorem isDigit09_not_upper {c : Char} (h : isDigit09 c = true) : isUpperAZ c = false := by
  rw [Bool.eq_false_iff]
  intro hu
  simp only [isDigit09, Bool.and_eq_true, decide_eq_true_eq] at h
  simp only [isUpperAZ, Bool.and_eq_true, decide_eq_true_eq] at hu
  omega

/-- C9 counterexample: the two callsign parsers are not equivalent — on
the callsign ABCD the FlightRadar24 prefix rule extracts ABC while the
OpenSky parser, whose pattern is anchored at both ends and requires a
digit-initial tail, extracts nothing. -/
theorem callsignParsers_counterexample :
    extractAirline "ABCD" = "ABC" ∧ (parseCallsign "ABCD").airline = "" ∧
    extractAirline "ABCD" ≠ (parseCallsign "ABCD").airline := by
  decide

/-- C9 amended: the OpenSky parser refines the FlightRadar24 prefix
rule — whenever `parseCallsign` extracts a nonempty airline code, the
FlightRadar24 prefix rule applied to the trimmed callsign extracts the
same code.  The converse fails (see the counterexample): the prefix rule
also fires on callsigns whose tail the anchored OpenSky pattern
rejects. -/
theorem parseCallsign_refines_extractAirline (cs : String)
    (h : (parseCallsign cs).airline ≠ "") :
    extractAirline (jsTrim cs) = (parseCallsign cs).airline := by
  by_cases hcs : cs = ""
  · subst hcs
    simp [parseCallsign] at h
  · rcases ht : (jsTrim cs).toList with _ | ⟨a, _ | ⟨b, _ | ⟨c, rest⟩⟩⟩
    · rw [parseCallsign, if_neg hcs, ht] at h
      simp at h
    · rw [parseCallsign, if_neg hcs, ht] at h
      simp at h
    · have htrim : ¬(jsTrim cs = "") := fun he => by
        rw [he] at ht
        simp at ht
      by_cases hab : isUpperAZ a && isUpperAZ b
      · rw [extractAirline, if_neg htrim, ht, parseCallsign, if_neg hcs, ht]
        have ha : isUpperAZ a = true := (Bool.and_eq_true _ _ |>.mp hab).1
        have hb : isUpperAZ b = true := (Bool.and_eq_true _ _ |>.mp hab).2
        simp [ha, hb]
      · rw [parseCallsign, if_neg hcs, ht] at h
        simp [hab] at h
    · have htrim : ¬(jsTrim cs = "") := fun he => by
        rw [he] at ht
        simp at ht
      by_cases hab : isUpperAZ a && isUpperAZ b
      · have ha : isUpperAZ a = true := (Bool.and_eq_true _ _ |>.mp hab).1
        have hb : isUpperAZ b = true := (Bool.and_eq_true _ _ |>.mp hab).2
        by_cases hc : isUpperAZ c && digitTail rest
        · have hcu : isUpperAZ c = true := (Bool.and_eq_true _ _ |>.mp hc).1
          have hdt : digitTail rest = true := (Bool.and_eq_true _ _ |>.mp hc).2
          rw [extractAirline, if_neg htrim, ht, parseCallsign, if_neg hcs, ht]
          simp [ha, hb, hcu, hdt]
        · by_cases hd : digitTail (c :: rest)
          · have hcd : isDigit09 c = true := by simpa [digitTail] using hd
            have hcu : isUpperAZ c = false := isDigit09_not_upper hcd
            rw [extractAirline, if_neg htrim, ht, parseCallsign, if_neg hcs, ht]
            simp [ha, hb, hcu, hc, hd]
          · rw [parseCallsign, if_neg hcs, ht] at h
            simp [hab, hc, hd] at h
      · rw [parseCallsign, if_neg hcs, ht] at h
        simp [hab] at h

/-- C9 witness: the refinement applied at a concrete matching
callsign. -/
theorem parseCallsign_refines_witness :
    (parseCallsign "BAW123").airline ≠ "" ∧
    extractAirline (jsTrim "BAW123") = (parseCallsign "BAW123").airline :=
  ⟨by decide, parseCallsign_refines_extractAirline "BAW123" (by decide)⟩

/-- Helper: `resolveStatus` never yields `landed` for a falsy on-ground
flag. -/
theorem resolveStatus_not_landed (onGround verticalSpeed altitude : JSVal)
    (h : truthy onGround = false) :
    resolveStatus onGround verticalSpeed altitude ≠ Status.landed := by
  rw [resolveStatus, if_neg (by simp [h])]
  split_ifs <;> simp

/-- Helper: a normalized flight built from a record with a falsy
on-ground flag never carries status `landed`. -/
theorem normalizeFlight_status_not_landed (r : RawFlight)
    (h : truthy r.onGround = false) (nf : Flight)
    (hnf : normalizeFlight (some r) = some nf) : nf.status ≠ Status.landed := by
  rcases hla : jsToNumber r.latitude with _ | la <;>
    rcases hlo : jsToNumber r.longitude with _ | lo <;>
      (rw [normalizeFlight] at hnf; rw [hla, hlo] at hnf)
  case none.none => exact Option.noConfusion hnf
  case none.some => exact Option.noConfusion hnf
  case some.none => exact Option.noConfusion hnf
  case some.some =>
    rw [← Option.some.inj hnf]
    exact resolveStatus_not_landed _ _ _ h

/-- C10: every flight in a batch returned by either adapter
transformation has a falsy on-ground flag and non-null latitude and
longitude (the shared filter removes the rest), and consequently no such
flight can be assigned the status `landed` by the normalizer. -/
theorem transformFlightData_spec (rawData : List (String × FR24Value))
    (states : Option (List (List JSVal))) (now : ℚ) (f : RawFlight)
    (hf : f ∈ fr24TransformFlightData rawData now ∨
      f ∈ openSkyTransformFlightData states now) :
    truthy f.onGround = false ∧ f.latitude ≠ JSVal.jsNull ∧ f.longitude ≠ JSVal.jsNull ∧
    ∀ nf : Flight, normalizeFlight (some f) = some nf → nf.status ≠ Status.landed := by
  have hfil : flightBatchFilter f = true := by
    rcases hf with hf | hf
    · rw [fr24TransformFlightData] at hf
      exact (List.mem_filter.mp hf).2
    · rw [openSkyTransformFlightData.eq_def] at hf
      exact (List.mem_filter.mp hf).2
  rw [flightBatchFilter] at hfil
  simp only [Bool.and_eq_true, bne_iff_ne, ne_eq, Bool.not_eq_true'] at hfil
  obtain ⟨⟨hlat, hlon⟩, hog⟩ := hfil
  exact ⟨hog, hlat, hlon, fun nf hnf => normalizeFlight_status_not_landed f hog nf hnf⟩

/-- A concrete FlightRadar24 feed row, for the C10 witness: airborne,
with coordinates present. -/
def fr24row : List JSVal :=
  [.str "abc123", .num 51, .num 3, .num 90, .num 10000, .num 400, .str "", .str "",
   .str "B738", .str "GABCD", .num 1700000000, .str "LHR", .str "JFK", .str "BA123",
   .num 0, .num 0, .str "BAW123"]

/-- C10 witness: the theorem applied to a one-row concrete
FlightRadar24 batch. -/
theorem transformFlightData_spec_witness :
    truthy (parseFR24Flight "x1" fr24row 0).onGround = false ∧
    (parseFR24Flight "x1" fr24row 0).latitude ≠ JSVal.jsNull ∧
    (parseFR24Flight "x1" fr24row 0).longitude ≠ JSVal.jsNull ∧
    ∀ nf : Flight, normalizeFlight (some (parseFR24Flight "x1" fr24row 0)) = some nf →
      nf.status ≠ Status.landed := by
  have hfil : flightBatchFilter (parseFR24Flight "x1" fr24row 0) = true := by
    norm_num [flightBatchFilter, parseFR24Flight, fr24row, jsOr, truthy]
    refine ⟨?_, ?_⟩ <;> exact fun hcon => nomatch hcon
  have hlist : fr24TransformFlightData [("x1", FR24Value.arr fr24row)] 0
      = [parseFR24Flight "x1" fr24row 0] := by
    simp only [fr24row] at hfil
    rw [fr24TransformFlightData]
    rw [List.filterMap_cons]
    norm_num [fr24row, List.filter_cons, hfil]
  exact transformFlightData_spec [("x1", .arr fr24row)] none 0 _
    (Or.inl (by rw [hlist]; exact List.mem_singleton_self _))

end FlightTracker
